import Mathlib

set_option maxRecDepth 8000

/-!
Shallow embedding of the trading bot decision core from ptj_bot.py
(position store, signal calculator, exit evaluator, execution
reconciliation) together with the entry rule of backtest.py.
Prices, balances and timestamps are modelled as rationals; the pandas
NaN that a too-short rolling window produces is modelled as Option,
with every comparison against an absent value evaluating to false,
matching pandas semantics.  Python truthiness of optional floats
(None and 0.0 are falsy) is modelled explicitly where the source
relies on it.
-/

namespace PTJ

/-- Config.MA_PERIOD from ptj_bot.py. -/
def MA_PERIOD : ℕ := 200

/-- Config.CONFIRMATION_MA from ptj_bot.py. -/
def CONFIRMATION_MA : ℕ := 50

/-- Config.STOP_LOSS_PCT from ptj_bot.py. -/
def STOP_LOSS_PCT : ℚ := 7 / 100

/-- Config.TRAILING_STOP_PCT from ptj_bot.py. -/
def TRAILING_STOP_PCT : ℚ := 10 / 100

/-- Config.TRAILING_ACTIVATION_PCT from ptj_bot.py. -/
def TRAILING_ACTIVATION_PCT : ℚ := 8 / 100

/-- Config.MIN_TRADE_AMOUNT from ptj_bot.py (KRW). -/
def MIN_TRADE_AMOUNT : ℚ := 10000

/-- Config.REENTRY_COOLDOWN from ptj_bot.py, in seconds (4 hours). -/
def REENTRY_COOLDOWN : ℚ := 60 * 60 * 4

/-- Config.ENABLE_REENTRY from ptj_bot.py. -/
def ENABLE_REENTRY : Bool := true

/-- Python truthiness of an optional float: None and 0.0 are falsy. -/
def truthyQ : Option ℚ → Bool
  | none => false
  | some x => decide (x ≠ 0)

/-- The persisted fields of PositionManager (ptj_bot.py lines 248 to 254).
Timestamps are rationals (seconds). -/
structure PositionState where
  entry_price : Option ℚ
  highest_price : Option ℚ
  in_position : Bool
  entry_time : Option ℚ
  last_exit_time : Option ℚ
  last_exit_reason : Option String
  deriving Repr, DecidableEq

/-- PositionManager.enter_position: unconditionally records the entry;
there is no already-in-position check in the source. -/
def enter_position (s : PositionState) (price : ℚ) (now : ℚ) : PositionState :=
  { entry_price := some price
    highest_price := some price
    in_position := true
    entry_time := some now
    last_exit_time := s.last_exit_time
    last_exit_reason := s.last_exit_reason }

/-- PositionManager.update_highest: raises the high-water mark when in
position and the price is strictly above it; the source compares against
the Python expression highest_price or 0, hence the getD 0. -/
def update_highest (s : PositionState) (price : ℚ) : PositionState × Bool :=
  if s.in_position = true ∧ (s.highest_price.getD 0) < price then
    ({ s with highest_price := some price }, true)
  else
    (s, false)

/-- PositionManager.exit_position: clears the position fields and records
the exit time and reason. -/
def exit_position (_s : PositionState) (reason : String) (now : ℚ) : PositionState :=
  { entry_price := none
    highest_price := none
    in_position := false
    entry_time := none
    last_exit_time := some now
    last_exit_reason := some reason }

/-- PositionManager.can_reenter: false when reentry is disabled; true when
no prior exit exists; otherwise false exactly while the remaining cooldown
is strictly positive. -/
def can_reenter (s : PositionState) (now : ℚ) : Bool :=
  if ENABLE_REENTRY = false then false
  else
    match s.last_exit_time with
    | none => true
    | some t => if 0 < REENTRY_COOLDOWN - (now - t) then false else true

/-- PositionManager.get_stop_loss_price: defined only when entry_price is
truthy in Python, i.e. present and nonzero. -/
def get_stop_loss_price (s : PositionState) : Option ℚ :=
  match s.entry_price with
  | some e => if e = 0 then none else some (e * (1 - STOP_LOSS_PCT))
  | none => none

/-- PositionManager.get_trailing_stop_price: defined only when
highest_price is truthy in Python, i.e. present and nonzero. -/
def get_trailing_stop_price (s : PositionState) : Option ℚ :=
  match s.highest_price with
  | some h => if h = 0 then none else some (h * (1 - TRAILING_STOP_PCT))
  | none => none

/-- PositionManager.is_trailing_active: re-evaluated against the current
price on every call; false when entry_price is falsy. -/
def is_trailing_active (s : PositionState) (current_price : ℚ) : Bool :=
  match s.entry_price with
  | some e => if e = 0 then false else decide (e * (1 + TRAILING_ACTIVATION_PCT) < current_price)
  | none => false

/-- PTJBot.check_exit_conditions: updates the high-water mark first, then
evaluates stop loss, trailing stop and 200 MA break in that order.  Returns
the updated store together with (should_exit, reason, allow_reentry).  The
truthiness guards on the two trigger prices mirror the Python conditions
stop_loss_price and ... / trailing_stop_price and ... exactly. -/
def check_exit_conditions (s : PositionState) (current_price : ℚ) (sellSignal : Bool) :
    PositionState × Bool × String × Bool :=
  if s.in_position = false then (s, false, "", false)
  else
    let s1 := (update_highest s current_price).1
    let slp := get_stop_loss_price s1
    if truthyQ slp = true ∧ current_price ≤ slp.getD 0 then
      (s1, true, "Stop Loss (7%)", true)
    else
      let tsp := get_trailing_stop_price s1
      if is_trailing_active s1 current_price = true ∧ truthyQ tsp = true ∧
          current_price ≤ tsp.getD 0 then
        (s1, true, "Trailing Stop (10%)", true)
      else if sellSignal = true then
        (s1, true, "Below 200 MA", false)
      else
        (s1, false, "", false)

/-- PTJBot.verify_position_sync: decides whether a real holding exists by
value against MIN_TRADE_AMOUNT, adopts an untracked holding, clears a stale
record, and reports whether the store was already in sync.  Returns the
updated store together with the boolean return value of the source. -/
def verify_position_sync (s : PositionState) (coin_balance : ℚ) (current_price : ℚ)
    (now : ℚ) : PositionState × Bool :=
  let has_actual := MIN_TRADE_AMOUNT < coin_balance * current_price
  if has_actual ∧ s.in_position = false then
    (enter_position s current_price now, false)
  else if ¬ has_actual ∧ s.in_position = true then
    (exit_position s "상태 불일치" now, false)
  else
    (s, true)

/-- The exchange-facing observations PTJBot.buy makes in order: the KRW
balance read before the order, the coin balance reported in the same read
(which the source discards), the ticker price, and the coin balance read
after the two-second settle delay. -/
structure BuyEnv where
  krw_balance : ℚ
  coin_before : ℚ
  current_price : Option ℚ
  coin_after : ℚ
  deriving Repr, DecidableEq

/-- PTJBot.buy: fails when the KRW balance is below MIN_TRADE_AMOUNT or the
ticker price is unavailable; after submitting the order it confirms on the
condition new_coin strictly positive (the pre-order coin balance is never
consulted), and only then mutates the store via enter_position. -/
def buy (s : PositionState) (env : BuyEnv) (now : ℚ) : PositionState × Bool :=
  if env.krw_balance < MIN_TRADE_AMOUNT then (s, false)
  else
    match env.current_price with
    | none => (s, false)
    | some p => if 0 < env.coin_after then (enter_position s p now, true) else (s, false)

/-- PTJBot.get_ohlcv: propagates a failed fetch and rejects a bar sequence
strictly shorter than MA_PERIOD; a sequence of MA_PERIOD bars or more is
passed through unchanged. -/
def get_ohlcv (closes : Option (List ℚ)) : Option (List ℚ) :=
  match closes with
  | none => none
  | some cs => if cs.length < MA_PERIOD then none else some cs

/-- The last value of a pandas rolling(w).mean() over the given closes:
absent (NaN) when fewer than w closes exist, else the arithmetic mean of
the trailing w closes. -/
def rollingMean (w : ℕ) (closes : List ℚ) : Option ℚ :=
  if closes.length < w then none
  else some ((closes.drop (closes.length - w)).sum / (w : ℚ))

/-- Pandas comparison current strictly greater than a possibly-NaN value:
false when the value is absent. -/
def gtO (a : ℚ) : Option ℚ → Bool
  | none => false
  | some b => decide (b < a)

/-- Pandas comparison current strictly less than a possibly-NaN value. -/
def ltO (a : ℚ) : Option ℚ → Bool
  | none => false
  | some b => decide (a < b)

/-- Pandas comparison current at most a possibly-NaN value. -/
def leO (a : ℚ) : Option ℚ → Bool
  | none => false
  | some b => decide (a ≤ b)

/-- Pandas comparison current at least a possibly-NaN value. -/
def geO (a : ℚ) : Option ℚ → Bool
  | none => false
  | some b => decide (b ≤ a)

/-- Pandas comparison between two possibly-NaN values. -/
def gtOO : Option ℚ → Option ℚ → Bool
  | some a, some b => decide (b < a)
  | _, _ => false

/-- The signal dictionary returned by PTJBot.calculate_signals, with the
two moving averages kept as possibly-NaN values. -/
structure Signals where
  current_price : ℚ
  ma_200 : Option ℚ
  ma_50 : Option ℚ
  above_200ma : Bool
  strong_uptrend : Bool
  buy_signal : Bool
  sell_signal : Bool
  deriving Repr, DecidableEq

/-- PTJBot.calculate_signals over the close column: current and previous
close are the last two elements, the averages are trailing rolling means,
and the four booleans follow the source including the pandas rule that any
comparison with NaN is false.  Absent when fewer than two closes exist
(the source would fail on iloc[-2]). -/
def calculate_signals (closes : List ℚ) : Option Signals :=
  match closes.reverse with
  | cur :: prev :: _ =>
    let ma200 := rollingMean MA_PERIOD closes
    let ma50 := rollingMean CONFIRMATION_MA closes
    let prevMa200 := rollingMean MA_PERIOD closes.dropLast
    some
      { current_price := cur
        ma_200 := ma200
        ma_50 := ma50
        above_200ma := gtO cur ma200
        strong_uptrend := gtO cur ma50 && gtOO ma50 ma200
        buy_signal := leO prev prevMa200 && gtO cur ma200
        sell_signal := geO prev prevMa200 && ltO cur ma200 }
  | _ => none

/-- The flat-state branch of PTJBot.run_once (lines 619 to 630): when no
position is held the bot attempts a buy exactly when the snapshot is above
the 200 MA and can_reenter holds; the reason string distinguishes a fresh
breakout from merely being above the average.  Returns the reason of the
attempted buy, or none when no buy is attempted. -/
def flat_entry_decision (s : PositionState) (now : ℚ) (g : Signals) : Option String :=
  if g.above_200ma = true then
    if can_reenter s now = true then
      some (if g.buy_signal = true then "200 MA Breakout" else "Above 200 MA")
    else none
  else none

/-- The entry condition of backtest.py line 100 evaluated at row i:
ma_cross_up or (strong_uptrend and above_200ma and the previous row not
above the 200 MA). -/
def backtest_buy_signal (crossUp strongTrend aboveLong prevAboveLong : Bool) : Bool :=
  crossUp || (strongTrend && aboveLong && !prevAboveLong)

/-- The flat-state entry condition as the spec words it, for comparison
with the code: canReenter gates both alternatives. -/
def specFlatEntryCondition (canR crossUp strongTrend aboveLong prevAboveLong : Bool) : Bool :=
  canR && (crossUp || (strongTrend && aboveLong && !prevAboveLong))

/-- Whether the previous bar closed above its 200 MA, i.e. the value
above_200ma of backtest.py evaluated at the previous row. -/
def prevAboveLong (closes : List ℚ) : Bool :=
  match closes.dropLast.reverse with
  | p :: _ => gtO p (rollingMean MA_PERIOD closes.dropLast)
  | _ => false

/-- Folding a sequence of update_highest calls over the store. -/
def run_updates (s : PositionState) (prices : List ℚ) : PositionState :=
  prices.foldl (fun t p => (update_highest t p).1) s

/-- The stored high-water mark read as a rational (0 when absent). -/
def hw (s : PositionState) : ℚ := s.highest_price.getD 0

/-- The stored entry price read as a rational (0 when absent). -/
def entryQ (s : PositionState) : ℚ := s.entry_price.getD 0

/-- A well-formed open position: in position with both the entry price and
the high-water mark present, and the mark at least the entry price. -/
def openInv (s : PositionState) : Prop :=
  s.in_position = true ∧ s.entry_price.isSome = true ∧ s.highest_price.isSome = true ∧
    entryQ s ≤ hw s

instance (s : PositionState) : Decidable (openInv s) := by
  unfold openInv
  infer_instance

/-- A store holding no position and carrying no exit history. -/
def flatState : PositionState := ⟨none, none, false, none, none, none⟩

/-- The data gate at the top of PTJBot.run_once: the snapshot computed for
the tick, absent when get_ohlcv fails, in which case run_once returns
before taking any decision or action. -/
def tick_snapshot (closes : Option (List ℚ)) : Option Signals :=
  (get_ohlcv closes).bind calculate_signals

/-- A concrete 201-bar close series: 150 closes at 100, then 49 closes at
120, then 121, then a final close of 111.  The last close sits above its
200 MA but below its 50 MA, and the previous close 121 was already above
its own 200 MA. -/
def csC2 : List ℚ := List.replicate 150 100 ++ (List.replicate 49 120 ++ [121, 111])

/-- The store right after entering at price 100 from flat. -/
def c1_s0 : PositionState := enter_position flatState 100 0

/-- The exit evaluation of the 109 tick on that store. -/
def c1_r1 : PositionState × Bool × String × Bool := check_exit_conditions c1_s0 109 false

/-- The exit evaluation of the following 120 tick. -/
def c1_r2 : PositionState × Bool × String × Bool := check_exit_conditions c1_r1.1 120 false

/-- The exit evaluation of the final 107 tick. -/
def c1_r3 : PositionState × Bool × String × Bool := check_exit_conditions c1_r2.1 107 false

/-- Helper: update_highest changes neither in_position nor entry_price. -/
theorem update_highest_fields (s : PositionState) (p : ℚ) :
    ((update_highest s p).1).in_position = s.in_position ∧
      ((update_highest s p).1).entry_price = s.entry_price := by
  unfold update_highest
  split <;> exact ⟨rfl, rfl⟩

/-- Helper: one update_highest step preserves the open-position invariant,
never lowers the high-water mark, and keeps the entry price. -/
theorem update_highest_inv (s : PositionState) (p : ℚ) (h : openInv s) :
    openInv (update_highest s p).1 ∧ hw s ≤ hw (update_highest s p).1 ∧
      ((update_highest s p).1).entry_price = s.entry_price := by
  obtain ⟨hin, he, hh, hle⟩ := h
  unfold update_highest
  split
  case isTrue hc =>
    refine ⟨⟨hin, he, rfl, ?_⟩, ?_, rfl⟩
    · simpa [entryQ, hw] using le_of_lt (lt_of_le_of_lt hle hc.2)
    · exact le_of_lt hc.2
  case isFalse hc =>
    exact ⟨⟨hin, he, hh, hle⟩, le_refl _, rfl⟩

/-- Helper: folding update_highest over any price list preserves the
invariant, never lowers the mark, and keeps the entry price. -/
theorem run_updates_inv (ps : List ℚ) (s : PositionState) (h : openInv s) :
    openInv (run_updates s ps) ∧ hw s ≤ hw (run_updates s ps) ∧
      (run_updates s ps).entry_price = s.entry_price := by
  induction ps generalizing s with
  | nil => exact ⟨h, le_refl _, rfl⟩
  | cons p ps ih =>
    obtain ⟨h1, h2, h3⟩ := update_highest_inv s p h
    obtain ⟨g1, g2, g3⟩ := ih (update_highest s p).1 h1
    exact ⟨g1, le_trans h2 g2, h3 ▸ g3⟩

/-- C7: for every open position satisfying the store invariant, any finite
sequence of update_highest calls leaves the high-water mark no lower than
before, and after every prefix of the sequence the store still satisfies
the invariant, keeps its entry price, and has its mark at least the entry
price. -/
theorem C7_highwater_invariant (s : PositionState) (ps : List ℚ) (h : openInv s) :
    hw s ≤ hw (run_updates s ps) ∧
    ∀ n : ℕ, openInv (run_updates s (ps.take n)) ∧
      (run_updates s (ps.take n)).entry_price = s.entry_price ∧
      entryQ s ≤ hw (run_updates s (ps.take n)) := by
  refine ⟨(run_updates_inv ps s h).2.1, fun n => ?_⟩
  obtain ⟨h1, h2, h3⟩ := run_updates_inv (ps.take n) s h
  refine ⟨h1, h3, ?_⟩
  have : entryQ (run_updates s (ps.take n)) = entryQ s := by
    unfold entryQ
    rw [h3]
  exact this ▸ h1.2.2.2

/-- C7 witness: the theorem evaluated at a freshly entered position and the
concrete price path [105, 99, 130]. -/
theorem C7_highwater_invariant_witness :
    openInv (enter_position flatState 100 0) ∧
      hw (enter_position flatState 100 0) ≤
        hw (run_updates (enter_position flatState 100 0) [105, 99, 130]) := by
  have hinv : openInv (enter_position flatState 100 0) := by
    refine ⟨rfl, rfl, rfl, ?_⟩
    norm_num [entryQ, hw, enter_position, flatState]
  exact ⟨hinv, (C7_highwater_invariant (enter_position flatState 100 0) [105, 99, 130] hinv).1⟩

/-- C4: when both the stop-loss condition and the trend-break condition
hold on the same tick for an open position, check_exit_conditions reports
the stop-loss reason with reentry allowed, not the trend break. -/
theorem C4_stop_loss_priority (s : PositionState) (price e : ℚ)
    (hin : s.in_position = true) (he : s.entry_price = some e) (he0 : e ≠ 0)
    (hle : price ≤ e * (1 - STOP_LOSS_PCT)) :
    check_exit_conditions s price true =
      ((update_highest s price).1, true, "Stop Loss (7%)", true) := by
  obtain ⟨hf1, hf2⟩ := update_highest_fields s price
  unfold check_exit_conditions
  rw [if_neg (by simp [hin])]
  have hslp : get_stop_loss_price (update_highest s price).1 =
      some (e * (1 - STOP_LOSS_PCT)) := by
    unfold get_stop_loss_price
    rw [hf2, he]
    simp [he0]
  rw [if_pos]
  constructor
  · rw [hslp]
    simp only [truthyQ]
    have : e * (1 - STOP_LOSS_PCT) ≠ 0 := by
      apply mul_ne_zero he0
      norm_num [STOP_LOSS_PCT]
    simp [this]
  · rw [hslp]
    simpa using hle

/-- C4 witness: the theorem at a concrete open position entered at 100 with
tick price 90 and a simultaneous 200 MA sell signal. -/
theorem C4_stop_loss_priority_witness :
    check_exit_conditions ⟨some 100, some 100, true, some 0, none, none⟩ 90 true =
      ((update_highest ⟨some 100, some 100, true, some 0, none, none⟩ 90).1,
        true, "Stop Loss (7%)", true) :=
  C4_stop_loss_priority ⟨some 100, some 100, true, some 0, none, none⟩ 90 100
    rfl rfl (by norm_num) (by norm_num [STOP_LOSS_PCT])

/-- C5 counterexample: enter_position invoked on a store already in
position does not fail and does not leave the stored fields unchanged: the
entry price, high-water mark and entry time are all overwritten. -/
theorem C5_counterexample :
    (enter_position ⟨some 100, some 120, true, some 7, none, none⟩ 50 9).entry_price =
        some 50 ∧
    (enter_position ⟨some 100, some 120, true, some 7, none, none⟩ 50 9).highest_price =
        some 50 ∧
    (enter_position ⟨some 100, some 120, true, some 7, none, none⟩ 50 9).entry_time =
        some 9 ∧
    (⟨some 100, some 120, true, some 7, none, none⟩ : PositionState).entry_price =
        some 100 := ⟨rfl, rfl, rfl, rfl⟩

/-- C5 amended: enter_position never fails; even when the store is already
in position it overwrites entryPrice, highestPriceSinceEntry and entryTime
with the new price and time, preserving only the last-exit fields. -/
theorem C5_enter_overwrites (s : PositionState) (p now : ℚ)
    (_h : s.in_position = true) :
    enter_position s p now =
      { entry_price := some p, highest_price := some p, in_position := true,
        entry_time := some now, last_exit_time := s.last_exit_time,
        last_exit_reason := s.last_exit_reason } := rfl

/-- C5 witness: the amended theorem at a concrete in-position store. -/
theorem C5_enter_overwrites_witness :
    (⟨some 100, some 120, true, some 7, none, none⟩ : PositionState).in_position = true ∧
    enter_position ⟨some 100, some 120, true, some 7, none, none⟩ 50 9 =
      ⟨some 50, some 50, true, some 9, none, none⟩ :=
  ⟨rfl, C5_enter_overwrites ⟨some 100, some 120, true, some 7, none, none⟩ 50 9 rfl⟩

/-- C6 counterexample: with a pre-order coin balance of 5 and an unchanged
post-settle coin balance of 5, buy still confirms the order, mutates the
store via enter_position and returns success, because the source only
tests new_coin strictly positive and never compares against the pre-order
balance. -/
theorem C6_counterexample :
    (buy flatState ⟨20000, 5, some 100, 5⟩ 0).2 = true ∧
    (buy flatState ⟨20000, 5, some 100, 5⟩ 0).1.in_position = true ∧
    (⟨20000, 5, some 100, 5⟩ : BuyEnv).coin_after =
      (⟨20000, 5, some 100, 5⟩ : BuyEnv).coin_before := by
  norm_num [buy, enter_position, flatState, MIN_TRADE_AMOUNT]

/-- C6 amended: buy calls enter_position and returns success exactly when
the KRW balance is at least the minimum trade amount, the ticker price is
available, and the post-settle coin balance is strictly positive,
irrespective of the pre-order coin balance; on every failure the store is
returned unchanged. -/
theorem C6_buy_characterization (s : PositionState) (env : BuyEnv) (now : ℚ) :
    ((buy s env now).2 = true ↔
      (MIN_TRADE_AMOUNT ≤ env.krw_balance ∧ env.current_price.isSome = true ∧
        0 < env.coin_after)) ∧
    ((buy s env now).2 = false → (buy s env now).1 = s) ∧
    ((buy s env now).2 = true → (buy s env now).1.in_position = true) := by
  obtain ⟨k, cb, cp, ca⟩ := env
  unfold buy
  by_cases hk : k < MIN_TRADE_AMOUNT
  · simp [hk]
  · cases cp with
    | none => simp [hk, not_lt.mp hk]
    | some p =>
      by_cases hca : 0 < ca
      · simp [hk, hca, not_lt.mp hk, enter_position]
      · simp [hk, hca]

/-- C6 witness: the amended theorem at a confirmed buy (balance 20000,
price available, post-settle coin 3) and at a rejected buy (balance below
the minimum), with the store unchanged in the failing case. -/
theorem C6_buy_characterization_witness :
    (buy flatState ⟨20000, 0, some 100, 3⟩ 0).2 = true ∧
    (buy flatState ⟨5000, 0, some 100, 0⟩ 0).1 = flatState :=
  ⟨(C6_buy_characterization flatState ⟨20000, 0, some 100, 3⟩ 0).1.mpr
      ⟨by norm_num [MIN_TRADE_AMOUNT], rfl, by norm_num⟩,
    (C6_buy_characterization flatState ⟨5000, 0, some 100, 0⟩ 0).2.1 (by
      norm_num [buy, MIN_TRADE_AMOUNT])⟩

/-- Helper: on a store with a recorded last exit, can_reenter reduces to
the comparison of the elapsed time against the cooldown. -/
theorem can_reenter_some (e h : Option ℚ) (b : Bool) (et : Option ℚ)
    (r : Option String) (t now : ℚ) :
    can_reenter ⟨e, h, b, et, some t, r⟩ now =
      decide (REENTRY_COOLDOWN ≤ now - t) := by
  show (if 0 < REENTRY_COOLDOWN - (now - t) then false else true) =
    decide (REENTRY_COOLDOWN ≤ now - t)
  by_cases hc : 0 < REENTRY_COOLDOWN - (now - t)
  · rw [if_pos hc]
    have hnle : ¬ REENTRY_COOLDOWN ≤ now - t := by linarith
    simp [hnle]
  · rw [if_neg hc]
    have hle : REENTRY_COOLDOWN ≤ now - t := by linarith [not_lt.mp hc]
    simp [hle]

/-- C8: can_reenter returns true exactly when reentry is enabled and either
no prior exit exists or the elapsed time since the last exit is at least
the cooldown; in the concrete 4-hour configuration an exit at time T gives
false at T plus 3 hours, true at T plus 4 hours 1 minute, and true at the
exact boundary T plus the cooldown. -/
theorem C8_can_reenter_characterization (s : PositionState) (now T : ℚ) :
    (can_reenter s now = true ↔
      (ENABLE_REENTRY = true ∧ (s.last_exit_time = none ∨
        ∃ t, s.last_exit_time = some t ∧ REENTRY_COOLDOWN ≤ now - t))) ∧
    can_reenter ⟨none, none, false, none, some T, none⟩ (T + 3 * 3600) = false ∧
    can_reenter ⟨none, none, false, none, some T, none⟩ (T + 4 * 3600 + 60) = true ∧
    can_reenter ⟨none, none, false, none, some T, none⟩ (T + REENTRY_COOLDOWN) = true := by
  obtain ⟨e, hp, b, et, lexit, r⟩ := s
  refine ⟨?_, ?_, ?_, ?_⟩
  · cases lexit with
    | none => simp [can_reenter, ENABLE_REENTRY]
    | some t =>
      rw [can_reenter_some]
      simp only [ENABLE_REENTRY, decide_eq_true_eq]
      constructor
      · intro hcool
        exact ⟨trivial, Or.inr ⟨t, rfl, hcool⟩⟩
      · rintro ⟨-, hnone | ⟨t', ht', hcool⟩⟩
        · exact absurd hnone (by simp)
        · obtain rfl : t = t' := by simpa using ht'
          exact hcool
  · rw [can_reenter_some]
    have hnle : ¬ REENTRY_COOLDOWN ≤ T + 3 * 3600 - T := by
      unfold REENTRY_COOLDOWN
      intro hcon
      linarith
    exact decide_eq_false hnle
  · rw [can_reenter_some]
    have hle : REENTRY_COOLDOWN ≤ T + 4 * 3600 + 60 - T := by
      unfold REENTRY_COOLDOWN
      linarith
    exact decide_eq_true hle
  · rw [can_reenter_some]
    have hle : REENTRY_COOLDOWN ≤ T + REENTRY_COOLDOWN - T := by linarith
    exact decide_eq_true hle

/-- C9: verify_position_sync is idempotent: running it a second time on the
store it produced, with the same reported coin balance and price, mutates
nothing and reports the store as in sync. -/
theorem C9_verify_sync_idempotent (s : PositionState) (coin price now now2 : ℚ) :
    verify_position_sync ((verify_position_sync s coin price now).1) coin price now2 =
      ((verify_position_sync s coin price now).1, true) := by
  unfold verify_position_sync
  by_cases hA : MIN_TRADE_AMOUNT < coin * price <;>
    by_cases hP : s.in_position = true <;>
      simp [hA, hP, enter_position, exit_position]

/-- C10: verify_position_sync compares the value of the reported balance at
the current price against the minimum trade amount, never the balance
against zero: an in-position store whose holding value is at most the
minimum (dust included) is cleared as stale, and a flat store adopts a
holding exactly when its value strictly exceeds the minimum. -/
theorem C10_verify_sync_threshold (s : PositionState) (coin price now : ℚ) :
    (s.in_position = true → coin * price ≤ MIN_TRADE_AMOUNT →
      ((verify_position_sync s coin price now).1.in_position = false ∧
        (verify_position_sync s coin price now).2 = false)) ∧
    (s.in_position = false →
      ((verify_position_sync s coin price now).1.in_position = true ↔
        MIN_TRADE_AMOUNT < coin * price)) := by
  constructor
  · intro hP hv
    unfold verify_position_sync
    simp [hP, not_lt.mpr hv, exit_position]
  · intro hP
    unfold verify_position_sync
    by_cases hA : MIN_TRADE_AMOUNT < coin * price <;>
      simp [hA, hP, enter_position]

/-- C10 witness: a strictly positive dust balance (0.001 coin at price 100,
value 0.1) is cleared from an in-position store, and a flat store adopts a
holding worth 20000 at the same price. -/
theorem C10_verify_sync_threshold_witness :
    (verify_position_sync ⟨some 100, some 100, true, some 0, none, none⟩
        (1 / 1000) 100 5).1.in_position = false ∧
    (verify_position_sync flatState 200 100 5).1.in_position = true :=
  ⟨((C10_verify_sync_threshold ⟨some 100, some 100, true, some 0, none, none⟩
      (1 / 1000) 100 5).1 rfl (by norm_num [MIN_TRADE_AMOUNT])).1,
    ((C10_verify_sync_threshold flatState 200 100 5).2 rfl).mpr
      (by norm_num [MIN_TRADE_AMOUNT])⟩

/-- C1 counterexample: entry at 100 with the configured 8% activation and
10% trailing stop, over the tick path [109, 120, 107]: trailing is active
at 109, the high-water mark reaches 120 and the trailing trigger is 108,
yet the 107 tick produces no exit at all (reason empty, not trailing-stop),
because is_trailing_active re-evaluates 107 against 108 and fails. -/
theorem C1_counterexample :
    is_trailing_active c1_r1.1 109 = true ∧
    c1_r2.1.highest_price = some 120 ∧
    get_trailing_stop_price c1_r2.1 = some 108 ∧
    c1_r3 = (c1_r2.1, false, "", false) := by
  norm_num [c1_s0, c1_r1, c1_r2, c1_r3, flatState, enter_position,
    check_exit_conditions, update_highest, get_stop_loss_price,
    get_trailing_stop_price, is_trailing_active, truthyQ,
    STOP_LOSS_PCT, TRAILING_STOP_PCT, TRAILING_ACTIVATION_PCT]

/-- C1 amended: entry at 100, activation 8%, trailing stop 10%, tick path
[109, 120, 107]: trailing activates at 109, the high becomes 120 and the
trigger becomes 108, but at the 107 tick the trailing stop does not fire
and the position stays open, because activation is re-evaluated against
the current price each tick and 107 is not above 108. -/
theorem C1_trailing_scenario :
    is_trailing_active c1_r1.1 109 = true ∧
    is_trailing_active c1_r2.1 120 = true ∧
    c1_r2.1.highest_price = some 120 ∧
    get_trailing_stop_price c1_r2.1 = some 108 ∧
    is_trailing_active c1_r2.1 107 = false ∧
    c1_r3.2.1 = false ∧
    c1_r3.1.in_position = true := by
  norm_num [c1_s0, c1_r1, c1_r2, c1_r3, flatState, enter_position,
    check_exit_conditions, update_highest, get_stop_loss_price,
    get_trailing_stop_price, is_trailing_active, truthyQ,
    STOP_LOSS_PCT, TRAILING_STOP_PCT, TRAILING_ACTIVATION_PCT]

/-- C2 amended: when flat, the live decision loop attempts a buy exactly
when the snapshot is above the 200 MA and can_reenter holds, with the
breakout reason reported exactly when buy_signal additionally holds; the
strong-trend and previous-tick conditions play no role in the live loop,
and the condition the spec describes is the backtest entry rule gated by
can_reenter, not the live rule. -/
theorem C2_flat_entry_characterization (s : PositionState) (now : ℚ) (g : Signals) :
    ((flat_entry_decision s now g).isSome = (g.above_200ma && can_reenter s now)) ∧
    (flat_entry_decision s now g = some "200 MA Breakout" ↔
      (g.above_200ma = true ∧ can_reenter s now = true ∧ g.buy_signal = true)) ∧
    (∀ cU sT aL pA : Bool, specFlatEntryCondition (can_reenter s now) cU sT aL pA =
      (can_reenter s now && backtest_buy_signal cU sT aL pA)) := by
  refine ⟨?_, ?_, fun cU sT aL pA => rfl⟩ <;>
    unfold flat_entry_decision <;>
      by_cases ha : g.above_200ma = true <;>
        by_cases hc : can_reenter s now = true <;>
          by_cases hb : g.buy_signal = true <;>
            simp [ha, hc, hb]

/-- Helper: calculate_signals produces a snapshot whenever at least two
closes exist. -/
theorem calculate_signals_isSome (cs : List ℚ) (h : 2 ≤ cs.length) :
    (calculate_signals cs).isSome = true := by
  unfold calculate_signals
  cases hrev : cs.reverse with
  | nil =>
    have hlen := congrArg List.length hrev
    rw [List.length_reverse] at hlen
    simp only [List.length_nil] at hlen
    omega
  | cons a tl =>
    cases tl with
    | nil =>
      have hlen := congrArg List.length hrev
      rw [List.length_reverse] at hlen
      simp only [List.length_cons, List.length_nil] at hlen
      omega
    | cons b tl2 => simp

/-- C3 counterexample: a bar sequence of exactly MA_PERIOD = 200 closes is
not rejected: get_ohlcv accepts it and a signal snapshot is produced, so
the claimed threshold of longWindow plus one does not hold. -/
theorem C3_counterexample :
    get_ohlcv (some (List.replicate MA_PERIOD (1 : ℚ))) =
      some (List.replicate MA_PERIOD (1 : ℚ)) ∧
    (calculate_signals (List.replicate MA_PERIOD (1 : ℚ))).isSome = true := by
  constructor
  · simp [get_ohlcv]
  · refine calculate_signals_isSome _ ?_
    rw [List.length_replicate]
    norm_num [MA_PERIOD]

/-- C3 amended: the required length is MA_PERIOD = 200, not 201: every
strictly shorter sequence is rejected by get_ohlcv and yields no tick
snapshot (and hence no action), every sequence of at least 200 bars passes
through unchanged, and at exactly 200 bars the previous long average is
unavailable so both cross signals are false. -/
theorem C3_data_threshold :
    (∀ cs : List ℚ, cs.length < MA_PERIOD →
      get_ohlcv (some cs) = none ∧ tick_snapshot (some cs) = none) ∧
    tick_snapshot none = none ∧
    (∀ cs : List ℚ, MA_PERIOD ≤ cs.length → get_ohlcv (some cs) = some cs) ∧
    (∀ cs : List ℚ, cs.length = MA_PERIOD →
      (calculate_signals cs).map (fun g => (g.buy_signal, g.sell_signal)) =
        some (false, false)) := by
  refine ⟨?_, rfl, ?_, ?_⟩
  · intro cs hl
    have hg : get_ohlcv (some cs) = none := by simp [get_ohlcv, hl]
    exact ⟨hg, by simp [tick_snapshot, hg]⟩
  · intro cs hl
    simp [get_ohlcv, not_lt.mpr hl]
  · intro cs hl
    have hprev : rollingMean MA_PERIOD cs.dropLast = none := by
      unfold rollingMean
      rw [if_pos]
      rw [List.length_dropLast, hl]
      norm_num [MA_PERIOD]
    unfold calculate_signals
    cases hrev : cs.reverse with
    | nil =>
      have hlen := congrArg List.length hrev
      rw [List.length_reverse, hl] at hlen
      simp only [List.length_nil] at hlen
      exact absurd hlen (by decide)
    | cons a tl =>
      cases tl with
      | nil =>
        have hlen := congrArg List.length hrev
        rw [List.length_reverse, hl] at hlen
        simp only [List.length_cons, List.length_nil] at hlen
        exact absurd hlen (by decide)
      | cons b tl2 =>
        simp [hprev, leO, geO]

/-- Helper: the reversed concrete series starts 111, 121. -/
theorem csC2_reverse :
    csC2.reverse = 111 :: 121 :: (List.replicate 49 (120 : ℚ) ++ List.replicate 150 100) := by
  simp [csC2, List.reverse_append]

/-- Helper: the concrete series has 201 closes. -/
theorem csC2_length : csC2.length = 201 := by
  simp [csC2]

/-- Helper: the 200 MA at the last close of the concrete series. -/
theorem csC2_ma200 : rollingMean MA_PERIOD csC2 = some (21012 / 200) := by
  unfold rollingMean
  rw [if_neg (by rw [csC2_length]; norm_num [MA_PERIOD])]
  rw [csC2_length]
  have hdrop : csC2.drop (201 - MA_PERIOD) =
      List.replicate 149 (100 : ℚ) ++ (List.replicate 49 120 ++ [121, 111]) := by
    have h1 : (201 : ℕ) - MA_PERIOD = 1 := by norm_num [MA_PERIOD]
    rw [h1, csC2, List.drop_append_of_le_length (by simp), List.drop_replicate]
  rw [hdrop]
  congr 1
  rw [List.sum_append, List.sum_append, List.sum_replicate, List.sum_replicate]
  norm_num [MA_PERIOD]

/-- Helper: the 50 MA at the last close of the concrete series. -/
theorem csC2_ma50 : rollingMean CONFIRMATION_MA csC2 = some (5992 / 50) := by
  unfold rollingMean
  rw [if_neg (by rw [csC2_length]; norm_num [CONFIRMATION_MA])]
  rw [csC2_length]
  have hdrop : csC2.drop (201 - CONFIRMATION_MA) =
      List.replicate 48 (120 : ℚ) ++ [121, 111] := by
    have h1 : (201 : ℕ) - CONFIRMATION_MA = 151 := by norm_num [CONFIRMATION_MA]
    rw [h1, csC2, List.drop_append_eq_append_drop]
    simp [List.drop_replicate]
  rw [hdrop]
  congr 1
  rw [List.sum_append, List.sum_replicate]
  norm_num [CONFIRMATION_MA]

/-- Helper: dropping the final close of the concrete series. -/
theorem csC2_dropLast :
    csC2.dropLast = List.replicate 150 (100 : ℚ) ++ (List.replicate 49 120 ++ [121]) := by
  rw [csC2, List.dropLast_append_of_ne_nil _ (by simp),
    List.dropLast_append_of_ne_nil _ (by simp)]
  rfl

/-- Helper: the 200 MA at the previous close of the concrete series. -/
theorem csC2_prev_ma200 :
    rollingMean MA_PERIOD csC2.dropLast = some (21001 / 200) := by
  rw [csC2_dropLast]
  unfold rollingMean
  rw [if_neg (by simp [MA_PERIOD])]
  have hlen : (List.replicate 150 (100 : ℚ) ++ (List.replicate 49 120 ++ [121])).length = 200 := by
    simp
  rw [hlen]
  have hdrop : (List.replicate 150 (100 : ℚ) ++ (List.replicate 49 120 ++ [121])).drop
      (200 - MA_PERIOD) = List.replicate 150 (100 : ℚ) ++ (List.replicate 49 120 ++ [121]) := by
    have h1 : (200 : ℕ) - MA_PERIOD = 0 := by norm_num [MA_PERIOD]
    rw [h1, List.drop_zero]
  rw [hdrop]
  congr 1
  rw [List.sum_append, List.sum_append, List.sum_replicate, List.sum_replicate]
  norm_num [MA_PERIOD]

/-- Helper: the full snapshot at the last close of the concrete series:
above the 200 MA, no strong uptrend, and no cross in either direction. -/
theorem csC2_signals :
    calculate_signals csC2 = some
      { current_price := 111
        ma_200 := some (21012 / 200)
        ma_50 := some (5992 / 50)
        above_200ma := true
        strong_uptrend := false
        buy_signal := false
        sell_signal := false } := by
  unfold calculate_signals
  rw [csC2_reverse]
  simp only [csC2_ma200, csC2_ma50, csC2_prev_ma200, Option.some.injEq, Signals.mk.injEq]
  refine ⟨trivial, trivial, trivial, ?_, ?_, ?_, ?_⟩
  · simp [gtO]
    norm_num
  · have h50 : gtO 111 (some (5992 / 50)) = false := by
      simp [gtO]
      norm_num
    rw [h50, Bool.false_and]
  · have hb : leO 121 (some (21001 / 200)) = false := by
      simp [leO]
      norm_num
    rw [hb, Bool.false_and]
  · have hs : ltO 111 (some (21012 / 200)) = false := by
      simp [ltO]
      norm_num
    rw [hs, Bool.and_false]

/-- Helper: the previous close of the concrete series was above its own
200 MA. -/
theorem csC2_prevAbove : prevAboveLong csC2 = true := by
  unfold prevAboveLong
  rw [csC2_prev_ma200]
  have hrev : csC2.dropLast.reverse =
      121 :: (List.replicate 49 (120 : ℚ) ++ List.replicate 150 100) := by
    rw [csC2_dropLast]
    simp [List.reverse_append]
  rw [hrev]
  simp [gtO]
  norm_num

/-- C2 counterexample: on the concrete series csC2 the snapshot is above
the 200 MA with no fresh cross and no strong trend, and the previous close
was above its long average, so the claimed entry condition is false; yet
the live flat-state decision loop, with reentry permitted, attempts a buy
with reason Above 200 MA. -/
theorem C2_counterexample :
    (calculate_signals csC2).map (fun g => flat_entry_decision flatState 0 g) =
      some (some "Above 200 MA") ∧
    (calculate_signals csC2).map (fun g =>
      specFlatEntryCondition (can_reenter flatState 0) g.buy_signal g.strong_uptrend
        g.above_200ma (prevAboveLong csC2)) = some false := by
  rw [csC2_signals]
  constructor
  · simp [flat_entry_decision, can_reenter, flatState, ENABLE_REENTRY]
  · rw [csC2_prevAbove]
    simp [specFlatEntryCondition]

/-- C3 witness: the amended theorem at 199 bars (rejected, no snapshot)
and at 200 bars (accepted, both cross signals false). -/
theorem C3_data_threshold_witness :
    get_ohlcv (some (List.replicate 199 (1 : ℚ))) = none ∧
    tick_snapshot (some (List.replicate 199 (1 : ℚ))) = none ∧
    get_ohlcv (some (List.replicate 200 (1 : ℚ))) = some (List.replicate 200 1) ∧
    (calculate_signals (List.replicate 200 (1 : ℚ))).map
      (fun g => (g.buy_signal, g.sell_signal)) = some (false, false) :=
  ⟨(C3_data_threshold.1 _ (by rw [List.length_replicate]; norm_num [MA_PERIOD])).1,
    (C3_data_threshold.1 _ (by rw [List.length_replicate]; norm_num [MA_PERIOD])).2,
    C3_data_threshold.2.2.1 _ (by rw [List.length_replicate]; norm_num [MA_PERIOD]),
    C3_data_threshold.2.2.2 _ (by rw [List.length_replicate]; rfl)⟩

end PTJ
